import Mathlib

/-!
Shallow embedding of the OfOpsApi message-safety pipeline.

Sources embedded here:
* `server/services/moderation.ts` — `ModerationService` (pattern classifier,
  stop-word detector, consent gate, escalation, compliance score, stop request).
* `routes.ts` — the `POST /api/ai/reply` orchestration handler, the
  `POST /api/consent/affirm` handler and the `PUT /api/moderation/queue/:id`
  handler.
* `server/storage.ts` — `updateModerationQueue` / `updateFan` (modelled as pure
  state transformers over in-memory stores).
* `server/services/audit.ts` — audit entries are modelled by their
  `(action, entityType)` tags.

The classifier uses JavaScript `RegExp.test` on regexes carrying the `g` flag,
which is stateful (`lastIndex` persists between calls).  We therefore embed a
small backtracking regex engine covering exactly the constructs used by the
source patterns (case-insensitive literals, ordered alternation, `\b`, greedy
`.*`, `\d+`, `\$`) together with the `lastIndex` bookkeeping of a `g`-flagged
`test` call, and thread the per-pattern `lastIndex` state explicitly.
-/

namespace OfOps

/-! ### Character helpers (ASCII fidelity of the JS string operations used) -/

/-- ASCII lower-casing, as performed by `toLowerCase()` on the ASCII range. -/
def asciiLower (c : Char) : Char :=
  if 'A' ≤ c ∧ c ≤ 'Z' then Char.ofNat (c.toNat + 32) else c

/-- JS regex word character (`\w` / the `\b` classification): `[A-Za-z0-9_]`. -/
def isWordChar (c : Char) : Bool :=
  (('a' ≤ c && c ≤ 'z') || ('A' ≤ c && c ≤ 'Z') || ('0' ≤ c && c ≤ '9') || c == '_')

/-- JS regex `\d`: `[0-9]`. -/
def isDigitCh (c : Char) : Bool := '0' ≤ c && c ≤ '9'

/-- Characters matched by `.` without the `s` flag: anything but a line
terminator (`\n`, `\r`, U+2028, U+2029). -/
def dotChar (c : Char) : Bool :=
  !(c == '\n' || c == '\r' || c.toNat == 0x2028 || c.toNat == 0x2029)

/-- White space removed by JS `String.prototype.trim`. -/
def isJsSpace (c : Char) : Bool :=
  c == ' ' || c == '\t' || c == '\n' || c == '\r' ||
  c.toNat == 0x0b || c.toNat == 0x0c || c.toNat == 0xa0 || c.toNat == 0xfeff ||
  (0x2000 ≤ c.toNat && c.toNat ≤ 0x200a) ||
  c.toNat == 0x1680 || c.toNat == 0x2028 || c.toNat == 0x2029 ||
  c.toNat == 0x202f || c.toNat == 0x205f || c.toNat == 0x3000

/-- UTF-16 length of a string, as JS `String.prototype.length` reports it. -/
def utf16Len (s : List Char) : Nat :=
  s.foldl (fun n c => n + (if c.toNat < 0x10000 then 1 else 2)) 0

/-! ### List-of-characters helpers -/

/-- Does `p` occur at the front of `s`? -/
def leadsWith : List Char → List Char → Bool
  | [], _ => true
  | _ :: _, [] => false
  | a :: as, b :: bs => a == b && leadsWith as bs

/-- Does `p` occur at the end of `s`? -/
def trailsWith (p s : List Char) : Bool := leadsWith p.reverse s.reverse

/-- Does `p` occur anywhere inside `s` (JS `String.prototype.includes`)? -/
def hasSub (p : List Char) : List Char → Bool
  | [] => leadsWith p []
  | c :: rest => leadsWith p (c :: rest) || hasSub p rest

/-- JS `trim()`: strip white space from both ends. -/
def trimCh (s : List Char) : List Char :=
  ((s.dropWhile isJsSpace).reverse.dropWhile isJsSpace).reverse

/-! ### A regex engine for the source's patterns

The abstract syntax covers exactly what the `ModerationService` patterns use.
Matching is JS-style: leftmost start position wins, alternatives are tried in
written order, `.*` and `\d+` are greedy with backtracking.  The continuation
result is the end position of the match, which is what a `g`-flagged `test`
stores into `lastIndex`. -/

inductive RE where
  | lit : List Char → RE
  | wb : RE
  | alt : RE → RE → RE
  | seq : RE → RE → RE
  | anyStar : RE
  | digitPlus : RE
deriving Repr, DecidableEq

/-- Is position `pos` of `s` a `\b` word boundary? -/
def isBoundary (s : List Char) (pos : Nat) : Bool :=
  let before := match s.get? (pos - 1) with
    | some c => pos ≠ 0 && isWordChar c
    | none => false
  let here := match s.get? pos with
    | some c => isWordChar c
    | none => false
  before != here

/-- Case-insensitive literal test at a position (`l` is stored lower-cased). -/
def litAt (l s : List Char) (pos : Nat) : Bool :=
  leadsWith l ((s.drop pos).map asciiLower)

/-- Greedy `.*`: prefer consuming a character, fall back to the continuation.
`fuel` bounds the recursion; callers pass at least `s.length`. -/
def starGreedy (s : List Char) (k : Nat → Option Nat) : Nat → Nat → Option Nat
  | 0, pos => k pos
  | fuel + 1, pos =>
    match s.get? pos with
    | some c => if dotChar c then (starGreedy s k fuel (pos + 1)) <|> k pos else k pos
    | none => k pos

/-- Greedy tail of `\d+` (zero or more further digits), longest first. -/
def digitsGreedy (s : List Char) (k : Nat → Option Nat) : Nat → Nat → Option Nat
  | 0, pos => k pos
  | fuel + 1, pos =>
    match s.get? pos with
    | some c => if isDigitCh c then (digitsGreedy s k fuel (pos + 1)) <|> k pos else k pos
    | none => k pos

/-- Backtracking matcher in continuation style.  `matchCore r s pos k` tries to
match `r` at `pos`; on success it calls `k` with the end position, and the
first success in JS preference order is returned. -/
def matchCore : RE → List Char → Nat → (Nat → Option Nat) → Option Nat
  | .lit l, s, pos, k => if litAt l s pos then k (pos + l.length) else none
  | .wb, s, pos, k => if isBoundary s pos then k pos else none
  | .alt r1 r2, s, pos, k => (matchCore r1 s pos k) <|> (matchCore r2 s pos k)
  | .seq r1 r2, s, pos, k => matchCore r1 s pos (fun p => matchCore r2 s p k)
  | .anyStar, s, pos, k => starGreedy s k s.length pos
  | .digitPlus, s, pos, k =>
    match s.get? pos with
    | some c => if isDigitCh c then digitsGreedy s k s.length (pos + 1) else none
    | none => none

/-- Try successive start positions `i, i+1, …` (up to and including the end of
the string) and report the end position of the first match found. -/
def searchAux (r : RE) (s : List Char) : Nat → Nat → Option Nat
  | 0, _ => none
  | fuel + 1, i =>
    match matchCore r s i some with
    | some e => some e
    | none => if i < s.length then searchAux r s fuel (i + 1) else none

/-- Leftmost match search starting at `start` (the stored `lastIndex`),
returning the end position of the match if any. -/
def regexSearchFrom (r : RE) (s : List Char) (start : Nat) : Option Nat :=
  if start > s.length then none else searchAux r s (s.length + 1 - start) start

/-- A `g`-flagged `RegExp` object: the pattern plus its mutable `lastIndex`. -/
structure GRegex where
  re : RE
  lastIndex : Nat
deriving Repr, DecidableEq

/-- `RegExp.prototype.test` on a `g`-flagged regex: search from `lastIndex`;
on success store the match end into `lastIndex`, on failure reset it to 0. -/
def gTest (p : GRegex) (s : List Char) : Bool × GRegex :=
  match regexSearchFrom p.re s p.lastIndex with
  | some e => (true, ⟨p.re, e⟩)
  | none => (false, ⟨p.re, 0⟩)

/-! ### The source's pattern fields, as regex ASTs -/

/-- A lower-cased literal word. -/
def w (s : String) : RE := .lit s.data

/-- Ordered alternation `(?:a|b|…)` of literal words. -/
def altOf : List String → RE
  | [] => .lit []
  | [a] => w a
  | a :: rest => .alt (w a) (altOf rest)

/-- A `\b(?:w1|w2|…)\b` pattern. -/
def wordPat (ws : List String) : RE := .seq .wb (.seq (altOf ws) .wb)

/-- `ModerationService.bannedPatterns` (profanity, IRL meetup attempts,
age-related, violence/self-harm, illegal substances). -/
def bannedPatterns : List RE :=
  [ wordPat ["fuck", "shit", "damn", "bitch"],
    wordPat ["meet", "meetup", "hotel", "address", "phone"],
    .seq (wordPat ["under", "kid", "minor", "teen", "child"])
      (.seq .anyStar (wordPat ["18", "years", "age"])),
    wordPat ["suicide", "kill", "death", "harm"],
    wordPat ["drug", "cocaine", "heroin", "meth"] ]

/-- `ModerationService.suspiciousPatterns` (age-play indicators,
non-consensual content, demanding free content, off-platform payments). -/
def suspiciousPatterns : List RE :=
  [ wordPat ["daddy", "baby", "little"],
    wordPat ["rape", "force", "non-consent"],
    .seq (wordPat ["send", "show", "pics", "nude"])
      (.seq .anyStar (wordPat ["free", "no", "without"])),
    .seq (w "$") (.seq .digitPlus (.seq .anyStar (wordPat ["cash", "paypal", "venmo"]))) ]

/-- `ModerationService.escalationPatterns` (minor-related content,
violence/threats, doxxing/stalking). -/
def escalationPatterns : List RE :=
  [ .seq .wb (.seq (.alt (w "minor") (.alt (.seq (w "under") (.seq .anyStar (w "18"))) (w "underage"))) .wb),
    wordPat ["kill", "suicide", "harm", "violence"],
    .seq (wordPat ["personal", "real", "actual", "home"])
      (.seq .anyStar (wordPat ["address", "location", "meet"])) ]

/-! ### Moderation service data types -/

inductive MAction where
  | allow | block | escalate | review
deriving Repr, DecidableEq

inductive Severity where
  | low | medium | high | critical
deriving Repr, DecidableEq

/-- The `ModerationResult` interface. -/
structure ModerationResult where
  action : MAction
  reason : Option String
  severity : Severity
  confidence : ℚ
deriving Repr, DecidableEq

inductive QStatus where
  | pending | approved | blocked
deriving Repr, DecidableEq

/-- An `InsertModerationQueue` record as written by `logToModerationQueue`. -/
structure QueueInsert where
  content : String
  flagReason : String
  severity : Severity
  status : QStatus
deriving Repr, DecidableEq

/-- Mutable regex state of a `ModerationService` instance: the `lastIndex` of
each of its twelve `g`-flagged pattern fields. -/
structure ModState where
  escalation : List GRegex
  banned : List GRegex
  suspicious : List GRegex
deriving Repr, DecidableEq

/-- The state of a freshly constructed `ModerationService` (every compiled
regex starts with `lastIndex = 0`). -/
def initModState : ModState :=
  ⟨escalationPatterns.map (⟨·, 0⟩), bannedPatterns.map (⟨·, 0⟩),
    suspiciousPatterns.map (⟨·, 0⟩)⟩

/-- The `for (const pattern of …) if (pattern.test(content))` loop over one
tier: returns whether some pattern matched, plus the updated pattern objects
(patterns after the first hit are not tested and keep their state). -/
def runTier : List GRegex → List Char → Bool × List GRegex
  | [], _ => (false, [])
  | p :: ps, s =>
    let g := gTest p s
    if g.1 then (true, g.2 :: ps)
    else
      let t := runTier ps s
      (t.1, g.2 :: t.2)

/-- `ModerationService.moderateMessage`: evaluate escalation patterns, then
banned patterns, then suspicious patterns, first match wins; then the length
check; else allow.  Returns the verdict, the service's regex state after the
call, and the moderation-queue records written during the call. -/
def moderateMessage (st : ModState) (content : String) :
    ModerationResult × ModState × List QueueInsert :=
  let s := content.data
  let esc := runTier st.escalation s
  if esc.1 then
    (⟨.escalate, some "Content matches critical violation pattern", .critical, 95/100⟩,
      ⟨esc.2, st.banned, st.suspicious⟩,
      [⟨content, "escalation_pattern", .critical, .pending⟩])
  else
    let ban := runTier st.banned s
    if ban.1 then
      (⟨.block, some "Content matches banned pattern", .high, 9/10⟩,
        ⟨esc.2, ban.2, st.suspicious⟩,
        [⟨content, "banned_pattern", .high, .pending⟩])
    else
      let sus := runTier st.suspicious s
      if sus.1 then
        (⟨.review, some "Content matches suspicious pattern", .medium, 7/10⟩,
          ⟨esc.2, ban.2, sus.2⟩,
          [⟨content, "suspicious_pattern", .medium, .pending⟩])
      else if utf16Len s < 3 then
        (⟨.allow, none, .low, 8/10⟩, ⟨esc.2, ban.2, sus.2⟩, [])
      else
        (⟨.allow, none, .low, 95/100⟩, ⟨esc.2, ban.2, sus.2⟩, [])

/-- `ModerationService.checkStopWords`: fixed vocabulary, matched against the
lower-cased trimmed text as the whole message or as a space-delimited token. -/
def checkStopWords (content : String) : Bool :=
  let stopWords : List String := ["stop", "unsubscribe", "no", "quit", "end", "block"]
  let n := trimCh (content.data.map asciiLower)
  stopWords.any fun word =>
    let wc := word.data
    n == wc || hasSub (' ' :: (wc ++ [' '])) n ||
      leadsWith (wc ++ [' ']) n || trailsWith (' ' :: wc) n

/-! ### Fans and the consent gate -/

/-- The fan's consent record `{ageAffirmed, romanticContent, timestamp}`;
the timestamp is not safety-relevant and is omitted. -/
structure Consent where
  ageAffirmed : Bool
  romanticContent : Bool
deriving Repr, DecidableEq

/-- The fan fields the safety pipeline reads or writes. -/
structure Fan where
  boundaries : List String
  preferences : List (String × Bool)
  consentStatus : Option Consent
deriving Repr, DecidableEq

/-- `ModerationService.checkConsentGate`: false when the fan is missing or has
no consent record, else the conjunction of the two consent flags. -/
def checkConsentGate (fan : Option Fan) : Bool :=
  match fan with
  | none => false
  | some f =>
    match f.consentStatus with
    | none => false
    | some c => c.ageAffirmed && c.romanticContent

/-- The fan mutation performed by `ModerationService.processStopRequest` via
`storage.updateFan`: boundaries and preferences are replaced wholesale. -/
def stopRequestFanUpdate (f : Fan) : Fan :=
  { f with boundaries := ["stop_all_messages"], preferences := [("opted_out", true)] }

/-! ### Audit entries and the `/api/ai/reply` pipeline -/

/-- An audit-log row, modelled by its `(action, entityType)` tags (the other
columns carry no control flow). -/
structure AuditEntry where
  action : String
  entityType : String
deriving Repr, DecidableEq

/-- Terminal outcomes of one `POST /api/ai/reply` request. -/
inductive Terminal where
  | blocked | escalated | stopped | notFound | consentRequired | responded
deriving Repr, DecidableEq

/-- Everything one pipeline run reads from outside: the message text, the
fan's stored record (if any), whether the persona exists, and the text the
response generator would produce if invoked. -/
structure PipeInput where
  message : String
  fan : Option Fan
  personaExists : Bool
  llmReply : String
deriving Repr, DecidableEq

/-- The observable effects of one pipeline run. -/
structure PipeEffects where
  queueItems : List QueueInsert
  auditEntries : List AuditEntry
  fanAfter : Option Fan
  fanMessages : List String
  aiMessages : List String
  conversationTouched : Bool
  llmInvoked : Bool
  consentChecked : Bool
  replyText : String
deriving Repr, DecidableEq

/-- Effects of a run that wrote nothing and left the fan untouched. -/
def pureEffects (fan : Option Fan) (reply : String) : PipeEffects :=
  ⟨[], [], fan, [], [], false, false, false, reply⟩

/-- The fixed acknowledgment returned by the stop-word branch. -/
def stopAckText : String :=
  "I understand you'd like to stop our conversations. You've been unsubscribed. Take care! 💕"

/-- The fixed consent-request prompt returned when the consent gate fails. -/
def consentPromptText : String :=
  "Before we chat, I need to confirm you're 18+ and okay with receiving romantic messages. Are you over 18 and interested in flirty conversation? 💕"

/-- The `POST /api/ai/reply` handler from `registerRoutes`, with the
`ModerationService` at state `st`.  The sequencing is the source's: pattern
moderation first (block, then escalate branches), then the stop-word check,
then persona/fan lookup, then the consent gate, then conversation get-or-create,
response generation, message persistence, and the conversation audit entry. -/
def aiReplyPipeline (st : ModState) (inp : PipeInput) : Terminal × PipeEffects :=
  let m := moderateMessage st inp.message
  let mres := m.1
  let q1 := m.2.2
  if mres.action = .block then
    (.blocked,
      { pureEffects inp.fan "Message blocked by moderation system" with
        queueItems := q1, auditEntries := [⟨"moderation_action", "message"⟩] })
  else if mres.action = .escalate then
    (.escalated,
      { pureEffects inp.fan "Message flagged for review" with
        queueItems := q1 ++
          [⟨inp.message, "ESCALATED: " ++ mres.reason.getD "", .critical, .pending⟩] })
  else if checkStopWords inp.message then
    (.stopped,
      { pureEffects (inp.fan.map stopRequestFanUpdate) stopAckText with
        queueItems := q1, auditEntries := [⟨"stop_request", "fan"⟩] })
  else if !inp.personaExists || inp.fan.isNone then
    (.notFound, { pureEffects inp.fan "Persona or fan not found" with queueItems := q1 })
  else if !checkConsentGate inp.fan then
    (.consentRequired,
      { pureEffects inp.fan consentPromptText with
        queueItems := q1, consentChecked := true })
  else
    (.responded,
      { queueItems := q1
        auditEntries := [⟨"ai_conversation", "conversation"⟩]
        fanAfter := inp.fan
        fanMessages := [inp.message]
        aiMessages := [inp.llmReply]
        conversationTouched := true
        llmInvoked := true
        consentChecked := true
        replyText := inp.llmReply })

/-! ### Compliance score -/

/-- JS `Math.round(x * 10) / 10` for non-negative `x`, in exact rationals. -/
def round1 (x : ℚ) : ℚ := (⌊x * 10 + 1 / 2⌋ : ℚ) / 10

/-- A stored moderation-queue row (fields read by the score and the resolve
operation). -/
structure QueueItem where
  id : String
  content : String
  flagReason : String
  severity : Severity
  status : String
  reviewedBy : Option String
  reviewedAt : Bool
deriving Repr, DecidableEq

/-- The arithmetic of `getComplianceScore`, over the three counts it reads. -/
def complianceFormula (blocked escalated total : ℕ) : ℚ :=
  if total = 0 then 100
  else
    let violationRate : ℚ := (blocked + escalated * 2 : ℚ) / total
    round1 (max 0 (100 - violationRate * 100))

/-- `ModerationService.getComplianceScore` over the stored queue: 100 on an
empty queue, else a score penalizing blocked and critical items, rounded to
one decimal place. -/
def getComplianceScore (queue : List QueueItem) : ℚ :=
  complianceFormula
    (queue.filter (fun item => item.status == "blocked")).length
    (queue.filter (fun item => item.severity == Severity.critical)).length
    queue.length

/-! ### Moderation-queue resolve and consent affirmation -/

/-- The update record built by the `PUT /api/moderation/queue/:id` handler. -/
structure QueueUpdate where
  status : String
  reviewedBy : Option String
  reviewedAt : Bool
deriving Repr, DecidableEq

/-- `DatabaseStorage.updateModerationQueue`: set the given fields on every row
with the given id and return the first updated row, if any.  No condition on
the current status is checked. -/
def updateModerationQueue (store : List QueueItem) (id : String) (upd : QueueUpdate) :
    Option QueueItem × List QueueItem :=
  let store' := store.map fun item =>
    if item.id == id then
      { item with
        status := upd.status
        reviewedBy := upd.reviewedBy
        reviewedAt := upd.reviewedAt }
    else item
  (store'.find? (fun item => item.id == id), store')

/-- The `PUT /api/moderation/queue/:id` handler: pass the request's status and
reviewer straight to storage together with a fresh `reviewedAt` timestamp. -/
def resolveModerationItem (store : List QueueItem) (id status reviewedBy : String) :
    Option QueueItem × List QueueItem :=
  updateModerationQueue store id ⟨status, some reviewedBy, true⟩

/-- The consent record built by the `POST /api/consent/affirm` handler from
the submitted affirmation strings. -/
def consentFromAffirmations (affirmations : List String) : Consent :=
  ⟨affirmations.contains "I am 18+", affirmations.contains "I consent to romantic messages"⟩

/-- The `POST /api/consent/affirm` handler: replace the fan's consent record
with one computed solely from the submitted affirmations, and append a
`fan_interaction` audit entry. -/
def affirmConsent (fan : Fan) (affirmations : List String) : Fan × AuditEntry :=
  ({ fan with consentStatus := some (consentFromAffirmations affirmations) },
    ⟨"fan_interaction", "fan"⟩)

/-! ### Specification-side definitions

These re-state, in the words of the specification, what one classifier call
on a fresh service should produce; the theorems below compare them with the
embedded source functions. -/

/-- Does some pattern of a tier match the text, searching from position 0? -/
def tierMatches (tier : List RE) (content : String) : Bool :=
  tier.any fun r => (regexSearchFrom r content.data 0).isSome

/-- The classifier verdict is `escalate` (escalation tier matched). -/
def escVerdict (c : String) : Bool := tierMatches escalationPatterns c

/-- The classifier verdict is `block` (no escalation match, block tier hit). -/
def blockVerdict (c : String) : Bool :=
  !escVerdict c && tierMatches bannedPatterns c

/-- The classifier verdict is `review` (only the review tier matched). -/
def reviewVerdict (c : String) : Bool :=
  !escVerdict c && !tierMatches bannedPatterns c && tierMatches suspiciousPatterns c

/-- The classifier result as the specification words it: ordered tiers with
first-match-wins, a minimal-length allowance, and a default allow. -/
def classifySpec (content : String) : ModerationResult :=
  if tierMatches escalationPatterns content then
    ⟨.escalate, some "Content matches critical violation pattern", .critical, 95/100⟩
  else if tierMatches bannedPatterns content then
    ⟨.block, some "Content matches banned pattern", .high, 9/10⟩
  else if tierMatches suspiciousPatterns content then
    ⟨.review, some "Content matches suspicious pattern", .medium, 7/10⟩
  else if utf16Len content.data < 3 then
    ⟨.allow, none, .low, 8/10⟩
  else
    ⟨.allow, none, .low, 95/100⟩

/-- The queue records one fresh classifier call writes. -/
def queueSpec (content : String) : List QueueInsert :=
  if tierMatches escalationPatterns content then
    [⟨content, "escalation_pattern", .critical, .pending⟩]
  else if tierMatches bannedPatterns content then
    [⟨content, "banned_pattern", .high, .pending⟩]
  else if tierMatches suspiciousPatterns content then
    [⟨content, "suspicious_pattern", .medium, .pending⟩]
  else []

/-! ### Characterization of a fresh classifier call -/

theorem gTest_zero (r : RE) (s : List Char) :
    (gTest ⟨r, 0⟩ s).1 = (regexSearchFrom r s 0).isSome := by
  unfold gTest
  cases regexSearchFrom r s 0 <;> rfl

theorem runTier_init_fst (tier : List RE) (s : List Char) :
    (runTier (tier.map (⟨·, 0⟩)) s).1 = tier.any fun r => (regexSearchFrom r s 0).isSome := by
  induction tier with
  | nil => rfl
  | cons r rest ih =>
    simp only [List.map_cons, runTier, List.any_cons, gTest_zero]
    by_cases h : (regexSearchFrom r s 0).isSome
    · simp [h]
    · simp only [Bool.not_eq_true] at h
      simp [h, ih]

theorem moderateMessage_init_fst (c : String) :
    (moderateMessage initModState c).1 = classifySpec c := by
  unfold moderateMessage classifySpec initModState tierMatches
  simp only [runTier_init_fst]
  by_cases h1 : escalationPatterns.any fun r => (regexSearchFrom r c.data 0).isSome
  · simp [h1]
  · simp only [Bool.not_eq_true] at h1
    by_cases h2 : bannedPatterns.any fun r => (regexSearchFrom r c.data 0).isSome
    · simp [h1, h2]
    · simp only [Bool.not_eq_true] at h2
      by_cases h3 : suspiciousPatterns.any fun r => (regexSearchFrom r c.data 0).isSome
      · simp [h1, h2, h3]
      · simp only [Bool.not_eq_true] at h3
        by_cases h4 : utf16Len c.data < 3 <;> simp [h1, h2, h3, h4]

/-- The `/api/ai/reply` handler on a fresh service, worded through the verdict
predicates: block and escalate short-circuit, then the stop-word check, then
the persona/fan lookup, then the consent gate, else the responder runs. -/
def pipelineSpec (inp : PipeInput) : Terminal × PipeEffects :=
  let q := queueSpec inp.message
  if blockVerdict inp.message then
    (.blocked,
      { pureEffects inp.fan "Message blocked by moderation system" with
        queueItems := q, auditEntries := [⟨"moderation_action", "message"⟩] })
  else if escVerdict inp.message then
    (.escalated,
      { pureEffects inp.fan "Message flagged for review" with
        queueItems := q ++
          [⟨inp.message, "ESCALATED: Content matches critical violation pattern", .critical, .pending⟩] })
  else if checkStopWords inp.message then
    (.stopped,
      { pureEffects (inp.fan.map stopRequestFanUpdate) stopAckText with
        queueItems := q, auditEntries := [⟨"stop_request", "fan"⟩] })
  else if !inp.personaExists || inp.fan.isNone then
    (.notFound, { pureEffects inp.fan "Persona or fan not found" with queueItems := q })
  else if !checkConsentGate inp.fan then
    (.consentRequired,
      { pureEffects inp.fan consentPromptText with queueItems := q, consentChecked := true })
  else
    (.responded,
      ⟨q, [⟨"ai_conversation", "conversation"⟩], inp.fan, [inp.message], [inp.llmReply],
        true, true, true, inp.llmReply⟩)

theorem moderateMessage_init_queue (c : String) :
    (moderateMessage initModState c).2.2 = queueSpec c := by
  unfold moderateMessage queueSpec initModState tierMatches
  simp only [runTier_init_fst]
  by_cases h1 : escalationPatterns.any fun r => (regexSearchFrom r c.data 0).isSome
  · simp [h1]
  · simp only [Bool.not_eq_true] at h1
    by_cases h2 : bannedPatterns.any fun r => (regexSearchFrom r c.data 0).isSome
    · simp [h1, h2]
    · simp only [Bool.not_eq_true] at h2
      by_cases h3 : suspiciousPatterns.any fun r => (regexSearchFrom r c.data 0).isSome
      · simp [h1, h2, h3]
      · simp only [Bool.not_eq_true] at h3
        by_cases h4 : utf16Len c.data < 3 <;> simp [h1, h2, h3, h4]

theorem aiReplyPipeline_init (inp : PipeInput) :
    aiReplyPipeline initModState inp = pipelineSpec inp := by
  simp only [aiReplyPipeline, moderateMessage_init_fst, moderateMessage_init_queue,
    pipelineSpec, blockVerdict, escVerdict]
  by_cases h1 : tierMatches escalationPatterns inp.message
  · simp [classifySpec, h1]
  · simp only [Bool.not_eq_true] at h1
    by_cases h2 : tierMatches bannedPatterns inp.message
    · simp [classifySpec, h1, h2]
    · simp only [Bool.not_eq_true] at h2
      by_cases h3 : tierMatches suspiciousPatterns inp.message
      · simp [classifySpec, h1, h2, h3]
      · simp only [Bool.not_eq_true] at h3
        by_cases h4 : utf16Len inp.message.data < 3 <;>
          simp [classifySpec, h1, h2, h3, h4]

/-! ### Compliance-score support -/

/-- The score formula as the specification words it:
`100 - min(100, 100 * (blocked + 2*critical) / total)`, 100 when `total = 0`. -/
def specScoreFormula (blocked critical total : ℕ) : ℚ :=
  if total = 0 then 100
  else 100 - min 100 (100 * ((blocked : ℚ) + 2 * critical) / total)

theorem round1_mono {x y : ℚ} (h : x ≤ y) : round1 x ≤ round1 y := by
  unfold round1
  rw [div_le_div_iff_of_pos_right (by norm_num : (0 : ℚ) < 10)]
  exact_mod_cast Int.floor_le_floor (by linarith)

theorem round1_nonneg {x : ℚ} (h : 0 ≤ x) : 0 ≤ round1 x := by
  unfold round1
  positivity

theorem round1_le_100 {x : ℚ} (h : x ≤ 100) : round1 x ≤ 100 := by
  unfold round1
  rw [div_le_iff₀ (by norm_num : (0 : ℚ) < 10)]
  have hlt : ⌊x * 10 + 1 / 2⌋ < 1001 := by
    rw [Int.floor_lt]
    push_cast
    linarith
  have hle : (⌊x * 10 + 1 / 2⌋ : ℤ) ≤ 1000 := by omega
  calc ((⌊x * 10 + 1 / 2⌋ : ℤ) : ℚ) ≤ (1000 : ℚ) := by exact_mod_cast hle
    _ = 100 * 10 := by norm_num

theorem sub_min_eq_max_sub (v : ℚ) : (100 : ℚ) - min 100 v = max 0 (100 - v) := by
  rcases le_total (100 : ℚ) v with h | h
  · rw [min_eq_left h, max_eq_left (by linarith : 100 - v ≤ 0)]
    ring
  · rw [min_eq_right h, max_eq_right (by linarith : (0 : ℚ) ≤ 100 - v)]

theorem complianceFormula_eq_round_spec (b c t : ℕ) :
    complianceFormula b c t = round1 (specScoreFormula b c t) := by
  unfold complianceFormula specScoreFormula
  by_cases ht : t = 0
  · simp only [ht, if_pos rfl]
    norm_num [round1]
  · simp only [if_neg ht]
    rw [sub_min_eq_max_sub]
    congr 2
    ring

theorem complianceFormula_nonneg (b c t : ℕ) : 0 ≤ complianceFormula b c t := by
  unfold complianceFormula
  split
  · norm_num
  · exact round1_nonneg (le_max_left 0 _)

theorem complianceFormula_le_100 (b c t : ℕ) : complianceFormula b c t ≤ 100 := by
  unfold complianceFormula
  split
  · norm_num
  · apply round1_le_100
    apply max_le (by norm_num)
    have hr : (0 : ℚ) ≤ ((b : ℚ) + (c : ℚ) * 2) / (t : ℚ) * 100 := by positivity
    linarith

theorem complianceFormula_anti_blocked {b b' : ℕ} (c t : ℕ) (h : b ≤ b') :
    complianceFormula b' c t ≤ complianceFormula b c t := by
  unfold complianceFormula
  by_cases ht : t = 0
  · simp [ht]
  · simp only [if_neg ht]
    apply round1_mono
    apply max_le_max le_rfl
    have hr : ((b : ℚ) + (c : ℚ) * 2) / (t : ℚ) * 100 ≤ ((b' : ℚ) + (c : ℚ) * 2) / (t : ℚ) * 100 := by
      gcongr
    linarith

theorem complianceFormula_anti_critical {c c' : ℕ} (b t : ℕ) (h : c ≤ c') :
    complianceFormula b c' t ≤ complianceFormula b c t := by
  unfold complianceFormula
  by_cases ht : t = 0
  · simp [ht]
  · simp only [if_neg ht]
    apply round1_mono
    apply max_le_max le_rfl
    have hr : ((b : ℚ) + (c : ℚ) * 2) / (t : ℚ) * 100 ≤ ((b : ℚ) + (c' : ℚ) * 2) / (t : ℚ) * 100 := by
      gcongr
    linarith

/-- Unconditional form of the queue update performed by the resolve handler. -/
theorem updateModerationQueue_map (store : List QueueItem) (id status reviewedBy : String) :
    (resolveModerationItem store id status reviewedBy).2 =
      store.map fun item =>
        if item.id == id then
          ⟨item.id, item.content, item.flagReason, item.severity, status, some reviewedBy, true⟩
        else item := rfl

/-! ### Claim theorems -/

/-- C4: on a fresh classifier instance, `moderateMessage` realises the ordered
first-match-wins tier cascade `classifySpec`: escalation tier gives
`escalate`/`critical`/0.95, else block tier gives `block`/`high`/0.9, else
review tier gives `review`/`medium`/0.7, else texts of UTF-16 length below 3
give `allow`/`low`/0.8, else `allow`/`low`/0.95; in particular a text matching
both an escalation and a block pattern is escalated, never downgraded. -/
theorem classifier_tier_order (c : String) :
    (moderateMessage initModState c).1 = classifySpec c ∧
    (tierMatches escalationPatterns c = true → tierMatches bannedPatterns c = true →
      (moderateMessage initModState c).1.action = MAction.escalate) := by
  refine ⟨moderateMessage_init_fst c, fun h1 _ => ?_⟩
  rw [moderateMessage_init_fst]
  simp [classifySpec, h1]

/-- Witness for C4 at the text "kill", which matches both the escalation tier
and the block tier and is escalated. -/
theorem classifier_tier_order_witness :
    tierMatches escalationPatterns "kill" = true ∧
    tierMatches bannedPatterns "kill" = true ∧
    (moderateMessage initModState "kill").1.action = MAction.escalate :=
  ⟨by decide, by decide, (classifier_tier_order "kill").2 (by decide) (by decide)⟩

/-- C9: the classifier is NOT deterministic.  The pattern fields carry the `g`
flag, so `test` advances `lastIndex`: sending the text "kill" twice to the same
service instance yields `escalate` on the first call but `block` on the second
(the escalation pattern that matched first no longer matches from its stored
`lastIndex`, and a block-tier pattern takes over). -/
theorem classifier_state_leak :
    (moderateMessage initModState "kill").1.action = MAction.escalate ∧
    (moderateMessage (moderateMessage initModState "kill").2.1 "kill").1.action =
      MAction.block :=
  ⟨by decide, by decide⟩

/-- Counterexample to C1: the text "stop calling me bitch" contains the
stop-word token "stop", yet the pipeline terminates in `blocked`, not
`stopped` — the handler runs the Pattern Classifier before the stop check. -/
theorem stop_precedence_fails :
    checkStopWords "stop calling me bitch" = true ∧
    (aiReplyPipeline initModState
        ⟨"stop calling me bitch", some ⟨[], [], some ⟨true, true⟩⟩, true, "hi"⟩).1 =
      Terminal.blocked ∧
    (aiReplyPipeline initModState
        ⟨"stop calling me bitch", some ⟨[], [], some ⟨true, true⟩⟩, true, "hi"⟩).1 ≠
      Terminal.stopped :=
  ⟨by decide, by decide, by decide⟩

/-- C1 (amended): the stop-word check runs after the Pattern Classifier; a
message containing a stop-word token terminates in `stopped` provided its text
matches no escalation-tier and no block-tier pattern (a review-tier match does
not preempt the stop). -/
theorem stop_word_after_classifier (fan : Option Fan) (pEx : Bool) (reply text : String)
    (hstop : checkStopWords text = true)
    (hesc : tierMatches escalationPatterns text = false)
    (hban : tierMatches bannedPatterns text = false) :
    (aiReplyPipeline initModState ⟨text, fan, pEx, reply⟩).1 = Terminal.stopped := by
  rw [aiReplyPipeline_init]
  simp [pipelineSpec, blockVerdict, escVerdict, hstop, hesc, hban]

/-- Witness for the amended C1 at the text "please stop". -/
theorem stop_word_after_classifier_witness :
    checkStopWords "please stop" = true ∧
    tierMatches escalationPatterns "please stop" = false ∧
    tierMatches bannedPatterns "please stop" = false ∧
    (aiReplyPipeline initModState ⟨"please stop", none, false, ""⟩).1 = Terminal.stopped :=
  ⟨by decide, by decide, by decide,
    stop_word_after_classifier none false "" "please stop" (by decide) (by decide) (by decide)⟩

/-- Counterexample to C2: on the review-verdict text "daddy" from a fully
consented fan, the handler (which has no branch for the `review` action)
invokes the response generator, persists the fan/AI message pair and advances
to `responded`. -/
theorem review_reaches_responder :
    (moderateMessage initModState "daddy").1.action = MAction.review ∧
    (aiReplyPipeline initModState
        ⟨"daddy", some ⟨[], [], some ⟨true, true⟩⟩, true, "hello"⟩).1 = Terminal.responded ∧
    (aiReplyPipeline initModState
        ⟨"daddy", some ⟨[], [], some ⟨true, true⟩⟩, true, "hello"⟩).2.llmInvoked = true ∧
    (aiReplyPipeline initModState
        ⟨"daddy", some ⟨[], [], some ⟨true, true⟩⟩, true, "hello"⟩).2.fanMessages = ["daddy"] ∧
    (aiReplyPipeline initModState
        ⟨"daddy", some ⟨[], [], some ⟨true, true⟩⟩, true, "hello"⟩).2.aiMessages = ["hello"] :=
  ⟨by decide, by decide, by decide, by decide, by decide⟩

/-- C2 (amended): a `review` verdict does not short-circuit the turn.  If the
text carries no stop word and the fan exists with full consent (persona
present), the responder IS invoked and the conversation advances to
`responded`, with the fan message and the generated reply persisted; the only
trace of the review verdict is its pending queue item. -/
theorem review_passthrough (f : Fan) (reply text : String)
    (hrev : reviewVerdict text = true)
    (hstop : checkStopWords text = false)
    (hcons : checkConsentGate (some f) = true) :
    aiReplyPipeline initModState ⟨text, some f, true, reply⟩ =
      (Terminal.responded,
        ⟨queueSpec text, [⟨"ai_conversation", "conversation"⟩], some f, [text], [reply],
          true, true, true, reply⟩) := by
  rw [aiReplyPipeline_init]
  simp only [reviewVerdict, Bool.and_eq_true, Bool.not_eq_true'] at hrev
  obtain ⟨⟨hesc, hban⟩, hsus⟩ := hrev
  simp [pipelineSpec, blockVerdict, hesc, hban, hstop, hcons]

/-- Witness for the amended C2 at the text "daddy". -/
theorem review_passthrough_witness :
    reviewVerdict "daddy" = true ∧
    checkStopWords "daddy" = false ∧
    checkConsentGate (some ⟨[], [], some ⟨true, true⟩⟩) = true ∧
    aiReplyPipeline initModState ⟨"daddy", some ⟨[], [], some ⟨true, true⟩⟩, true, "ok"⟩ =
      (Terminal.responded,
        ⟨queueSpec "daddy", [⟨"ai_conversation", "conversation"⟩],
          some ⟨[], [], some ⟨true, true⟩⟩, ["daddy"], ["ok"], true, true, true, "ok"⟩) :=
  ⟨by decide, by decide, by decide,
    review_passthrough ⟨[], [], some ⟨true, true⟩⟩ "ok" "daddy"
      (by decide) (by decide) (by decide)⟩

/-- Counterexample to C3: the escalate-verdict text "i will harm you" produces
TWO queue items (one from the classifier, one from `escalateMessage`) and NO
audit entry; the review-verdict text "baby" from an unconsented fan produces
one queue item and no audit entry. -/
theorem verdict_effect_counts_fail :
    (moderateMessage initModState "i will harm you").1.action = MAction.escalate ∧
    (aiReplyPipeline initModState
        ⟨"i will harm you", some ⟨[], [], some ⟨true, true⟩⟩, true, "r"⟩).2.queueItems.length = 2 ∧
    (aiReplyPipeline initModState
        ⟨"i will harm you", some ⟨[], [], some ⟨true, true⟩⟩, true, "r"⟩).2.auditEntries.length = 0 ∧
    (moderateMessage initModState "baby").1.action = MAction.review ∧
    (aiReplyPipeline initModState
        ⟨"baby", some ⟨[], [], some ⟨true, false⟩⟩, true, "r"⟩).2.queueItems.length = 1 ∧
    (aiReplyPipeline initModState
        ⟨"baby", some ⟨[], [], some ⟨true, false⟩⟩, true, "r"⟩).2.auditEntries.length = 0 :=
  ⟨by decide, by decide, by decide, by decide, by decide, by decide⟩

/-- C3 (amended): per inbound message, a `block` verdict yields exactly one
queue item and exactly one audit entry (a `moderation_action`); an `escalate`
verdict yields exactly two queue items and no audit entry; a `review` verdict
yields exactly one queue item and no `moderation_action` audit entry. -/
theorem verdict_effect_counts (inp : PipeInput) :
    (blockVerdict inp.message = true →
      (aiReplyPipeline initModState inp).2.queueItems.length = 1 ∧
      (aiReplyPipeline initModState inp).2.auditEntries = [⟨"moderation_action", "message"⟩]) ∧
    (escVerdict inp.message = true →
      (aiReplyPipeline initModState inp).2.queueItems.length = 2 ∧
      (aiReplyPipeline initModState inp).2.auditEntries = []) ∧
    (reviewVerdict inp.message = true →
      (aiReplyPipeline initModState inp).2.queueItems.length = 1 ∧
      (aiReplyPipeline initModState inp).2.auditEntries.filter
        (fun a => a.action == "moderation_action") = []) := by
  rw [aiReplyPipeline_init]
  refine ⟨fun hb => ?_, fun he => ?_, fun hr => ?_⟩
  · have hb' := hb
    simp only [blockVerdict, Bool.and_eq_true, Bool.not_eq_true'] at hb'
    obtain ⟨hesc, hban⟩ := hb'
    simp only [escVerdict] at hesc
    simp [pipelineSpec, hb, queueSpec, hesc, hban]
  · have hbv : blockVerdict inp.message = false := by
      simp [blockVerdict, he]
    have hesc : tierMatches escalationPatterns inp.message = true := by
      simpa [escVerdict] using he
    simp [pipelineSpec, hbv, he, queueSpec, hesc, pureEffects]
  · simp only [reviewVerdict, Bool.and_eq_true, Bool.not_eq_true'] at hr
    obtain ⟨⟨hesc, hban⟩, hsus⟩ := hr
    have hescT : tierMatches escalationPatterns inp.message = false := by
      simpa [escVerdict] using hesc
    have hbv : blockVerdict inp.message = false := by
      simp [blockVerdict, hban]
    simp only [pipelineSpec, hbv, hesc, Bool.false_eq_true, if_false]
    split_ifs <;> simp [queueSpec, hescT, hban, hsus, pureEffects]

/-- Witness for the amended C3 on one concrete text per verdict. -/
theorem verdict_effect_counts_witness :
    blockVerdict "damn" = true ∧
    (aiReplyPipeline initModState ⟨"damn", none, false, ""⟩).2.auditEntries =
      [⟨"moderation_action", "message"⟩] ∧
    escVerdict "violence" = true ∧
    (aiReplyPipeline initModState ⟨"violence", none, false, ""⟩).2.queueItems.length = 2 ∧
    reviewVerdict "baby" = true ∧
    (aiReplyPipeline initModState ⟨"baby", none, false, ""⟩).2.queueItems.length = 1 :=
  ⟨by decide, ((verdict_effect_counts ⟨"damn", none, false, ""⟩).1 (by decide)).2,
    by decide, ((verdict_effect_counts ⟨"violence", none, false, ""⟩).2.1 (by decide)).1,
    by decide, ((verdict_effect_counts ⟨"baby", none, false, ""⟩).2.2 (by decide)).1⟩

/-- Counterexample to C5: the text "no" matches no pattern tier and the fan
lacks romantic-content consent, yet the pipeline terminates in `stopped` (the
text is a stop word) and mutates the fan record. -/
theorem consent_required_fails :
    tierMatches escalationPatterns "no" = false ∧
    tierMatches bannedPatterns "no" = false ∧
    tierMatches suspiciousPatterns "no" = false ∧
    checkConsentGate (some ⟨["b"], [], some ⟨true, false⟩⟩) = false ∧
    (aiReplyPipeline initModState
        ⟨"no", some ⟨["b"], [], some ⟨true, false⟩⟩, true, "r"⟩).1 = Terminal.stopped ∧
    (aiReplyPipeline initModState
        ⟨"no", some ⟨["b"], [], some ⟨true, false⟩⟩, true, "r"⟩).1 ≠
      Terminal.consentRequired ∧
    (aiReplyPipeline initModState
        ⟨"no", some ⟨["b"], [], some ⟨true, false⟩⟩, true, "r"⟩).2.fanAfter ≠
      some ⟨["b"], [], some ⟨true, false⟩⟩ :=
  ⟨by decide, by decide, by decide, by decide, by decide, by decide, by decide⟩

/-- C5 (amended): a message that matches no pattern tier AND contains no
stop-word token, from an existing persona and an existing fan lacking full
consent, terminates in `consent_required` with the fixed prompt and performs
no write whatsoever (no queue item, no audit entry, no fan/message/conversation
mutation, no responder call); and the consent gate returns true iff the fan's
consent record exists with both flags true. -/
theorem consent_gate_behaviour (f : Fan) (reply text : String)
    (hesc : tierMatches escalationPatterns text = false)
    (hban : tierMatches bannedPatterns text = false)
    (hsus : tierMatches suspiciousPatterns text = false)
    (hstop : checkStopWords text = false)
    (hcons : checkConsentGate (some f) = false) :
    aiReplyPipeline initModState ⟨text, some f, true, reply⟩ =
      (Terminal.consentRequired,
        { pureEffects (some f) consentPromptText with consentChecked := true }) ∧
    (∀ g : Fan, checkConsentGate (some g) = true ↔
      ∃ c, g.consentStatus = some c ∧ c.ageAffirmed = true ∧ c.romanticContent = true) := by
  constructor
  · rw [aiReplyPipeline_init]
    simp [pipelineSpec, blockVerdict, escVerdict, hesc, hban, hsus, hstop, hcons, queueSpec,
      pureEffects]
  · intro g
    cases hcs : g.consentStatus with
    | none => simp [checkConsentGate, hcs]
    | some c =>
      cases c with
      | mk a r => cases a <;> cases r <;> simp [checkConsentGate, hcs]

/-- Witness for the amended C5 at the text "good morning" and a fan affirming
age but not romantic content. -/
theorem consent_gate_behaviour_witness :
    tierMatches escalationPatterns "good morning" = false ∧
    tierMatches bannedPatterns "good morning" = false ∧
    tierMatches suspiciousPatterns "good morning" = false ∧
    checkStopWords "good morning" = false ∧
    checkConsentGate (some ⟨[], [], some ⟨true, false⟩⟩) = false ∧
    (aiReplyPipeline initModState
        ⟨"good morning", some ⟨[], [], some ⟨true, false⟩⟩, true, "r"⟩ =
      (Terminal.consentRequired,
        { pureEffects (some ⟨[], [], some ⟨true, false⟩⟩) consentPromptText with
          consentChecked := true })) :=
  ⟨by decide, by decide, by decide, by decide, by decide,
    (consent_gate_behaviour ⟨[], [], some ⟨true, false⟩⟩ "r" "good morning"
      (by decide) (by decide) (by decide) (by decide) (by decide)).1⟩

/-- Counterexample to C6: resolving the same queue item twice (pending →
blocked, then blocked → approved) is NOT rejected on the second call: the
second resolve succeeds and overwrites the item. -/
theorem resolve_twice_not_rejected :
    (resolveModerationItem [⟨"q1", "msg", "banned_pattern", .high, "pending", none, false⟩]
        "q1" "blocked" "rev1").2 =
      [⟨"q1", "msg", "banned_pattern", .high, "blocked", some "rev1", true⟩] ∧
    (resolveModerationItem [⟨"q1", "msg", "banned_pattern", .high, "blocked", some "rev1", true⟩]
        "q1" "approved" "rev2").1 =
      some ⟨"q1", "msg", "banned_pattern", .high, "approved", some "rev2", true⟩ ∧
    (resolveModerationItem [⟨"q1", "msg", "banned_pattern", .high, "blocked", some "rev1", true⟩]
        "q1" "approved" "rev2").2 =
      [⟨"q1", "msg", "banned_pattern", .high, "approved", some "rev2", true⟩] :=
  ⟨by decide, by decide, by decide⟩

/-- C6 (amended): the resolve operation enforces no status-transition
restriction: it overwrites the matching item's status, reviewer and review
timestamp regardless of the item's current status, and resolving the same item
twice applies the second update as if the first had not happened. -/
theorem resolve_unconditional (store : List QueueItem) (id s1 s2 r1 r2 : String) :
    ((resolveModerationItem store id s1 r1).2 =
      store.map fun item =>
        if item.id == id then
          ⟨item.id, item.content, item.flagReason, item.severity, s1, some r1, true⟩
        else item) ∧
    (resolveModerationItem (resolveModerationItem store id s1 r1).2 id s2 r2).2 =
      (resolveModerationItem store id s2 r2).2 := by
  refine ⟨updateModerationQueue_map store id s1 r1, ?_⟩
  rw [updateModerationQueue_map, updateModerationQueue_map, updateModerationQueue_map,
    List.map_map]
  congr 1
  funext x
  by_cases h : x.id == id <;> simp [Function.comp, h]

/-- Counterexample to C7: "please stop this shit" is a positive stop-word
match, yet the pipeline does not short-circuit to `stopped`: it is blocked by
the classifier, the fan's boundaries are NOT overwritten, and no
`stop_request` audit entry is written. -/
theorem stop_shortcircuit_fails :
    checkStopWords "please stop this shit" = true ∧
    (aiReplyPipeline initModState
        ⟨"please stop this shit", some ⟨["prior"], [("a", true)], some ⟨true, true⟩⟩, true, "r"⟩).1 =
      Terminal.blocked ∧
    (aiReplyPipeline initModState
        ⟨"please stop this shit", some ⟨["prior"], [("a", true)], some ⟨true, true⟩⟩, true, "r"⟩).2.fanAfter =
      some ⟨["prior"], [("a", true)], some ⟨true, true⟩⟩ ∧
    (aiReplyPipeline initModState
        ⟨"please stop this shit", some ⟨["prior"], [("a", true)], some ⟨true, true⟩⟩, true, "r"⟩).2.auditEntries =
      [⟨"moderation_action", "message"⟩] :=
  ⟨by decide, by decide, by decide, by decide⟩

/-- C7 (amended): on a positive stop-word match that no escalation-tier or
block-tier pattern preempts, the pipeline terminates in `stopped` with the
fixed acknowledgment, performs no consent check and no responder call,
overwrites the fan's boundaries to exactly `["stop_all_messages"]`, replaces
preferences with the opted-out marker, and appends a `stop_request` audit
entry; in particular "hey STOP" ends `stopped` with boundaries
`["stop_all_messages"]`. -/
theorem stop_branch_effects (f : Fan) (pEx : Bool) (reply text : String)
    (hstop : checkStopWords text = true)
    (hesc : tierMatches escalationPatterns text = false)
    (hban : tierMatches bannedPatterns text = false) :
    aiReplyPipeline initModState ⟨text, some f, pEx, reply⟩ =
      (Terminal.stopped,
        { pureEffects (some ⟨["stop_all_messages"], [("opted_out", true)], f.consentStatus⟩)
            stopAckText with
          queueItems := queueSpec text, auditEntries := [⟨"stop_request", "fan"⟩] }) := by
  rw [aiReplyPipeline_init]
  simp [pipelineSpec, blockVerdict, escVerdict, hstop, hesc, hban, stopRequestFanUpdate]

/-- Witness for the amended C7 at the scenario text "hey STOP". -/
theorem stop_branch_effects_witness :
    checkStopWords "hey STOP" = true ∧
    tierMatches escalationPatterns "hey STOP" = false ∧
    tierMatches bannedPatterns "hey STOP" = false ∧
    aiReplyPipeline initModState
        ⟨"hey STOP", some ⟨["x"], [("k", true)], some ⟨true, true⟩⟩, true, "r"⟩ =
      (Terminal.stopped,
        { pureEffects (some ⟨["stop_all_messages"], [("opted_out", true)], some ⟨true, true⟩⟩)
            stopAckText with
          queueItems := queueSpec "hey STOP", auditEntries := [⟨"stop_request", "fan"⟩] }) :=
  ⟨by decide, by decide, by decide,
    stop_branch_effects ⟨["x"], [("k", true)], some ⟨true, true⟩⟩ true "r" "hey STOP"
      (by decide) (by decide) (by decide)⟩

/-- Counterexample to C8: the source rounds to one decimal place, so the
returned score is not the exact claimed formula.  A queue of one blocked and
two pending items scores 66.7, while the claimed expression gives 200/3. -/
theorem compliance_score_not_exact_formula :
    getComplianceScore
        [⟨"1", "a", "r", .high, "blocked", none, false⟩,
          ⟨"2", "b", "r", .low, "pending", none, false⟩,
          ⟨"3", "c", "r", .low, "pending", none, false⟩] = 667 / 10 ∧
    specScoreFormula 1 0 3 = 200 / 3 ∧
    (667 / 10 : ℚ) ≠ 200 / 3 := by
  refine ⟨?_, ?_, by norm_num⟩
  · show complianceFormula 1 0 3 = 667 / 10
    norm_num [complianceFormula, round1, max_def]
  · norm_num [specScoreFormula, min_def]

/-- C8 (amended): the compliance score equals the claimed formula
`100 - min(100, 100*(blocked + 2*critical)/total)` rounded to one decimal
place (half up); it is exactly 100 when the queue is empty, always lies in
[0, 100], and holding the total fixed it is monotonically non-increasing in
the blocked count and in the critical count. -/
theorem compliance_score_behaviour :
    (∀ q : List QueueItem,
      getComplianceScore q =
        round1 (specScoreFormula (q.filter fun i => i.status == "blocked").length
          (q.filter fun i => i.severity == Severity.critical).length q.length)) ∧
    (∀ q : List QueueItem, 0 ≤ getComplianceScore q ∧ getComplianceScore q ≤ 100) ∧
    (∀ q : List QueueItem, q.length = 0 → getComplianceScore q = 100) ∧
    (∀ b b' c t : ℕ, b ≤ b' → complianceFormula b' c t ≤ complianceFormula b c t) ∧
    (∀ b c c' t : ℕ, c ≤ c' → complianceFormula b c' t ≤ complianceFormula b c t) := by
  refine ⟨fun q => complianceFormula_eq_round_spec _ _ _,
    fun q => ⟨complianceFormula_nonneg _ _ _, complianceFormula_le_100 _ _ _⟩,
    fun q hq => ?_,
    fun b b' c t h => complianceFormula_anti_blocked c t h,
    fun b c c' t h => complianceFormula_anti_critical b t h⟩
  unfold getComplianceScore complianceFormula
  simp [hq]

/-- Witness for the amended C8: the empty queue scores 100, and adding a
blocked item or a critical item (total fixed) does not raise the formula. -/
theorem compliance_score_behaviour_witness :
    getComplianceScore [] = 100 ∧
    complianceFormula 2 0 3 ≤ complianceFormula 1 0 3 ∧
    complianceFormula 1 1 3 ≤ complianceFormula 1 0 3 :=
  ⟨compliance_score_behaviour.2.2.1 [] rfl,
    compliance_score_behaviour.2.2.2.1 1 2 0 3 (by norm_num),
    compliance_score_behaviour.2.2.2.2 1 0 1 3 (by norm_num)⟩

/-- C10: the consent-affirmation operation replaces the fan's entire consent
record on every call: afterwards `ageAffirmed` holds iff the submitted
affirmations contain the exact string "I am 18+" and `romanticContent` holds
iff they contain "I consent to romantic messages"; other strings are ignored,
other fan fields are untouched, and an empty affirmations array resets both
flags to false, revoking previously granted consent. -/
theorem consent_affirmation_replaces (f : Fan) (affs : List String) :
    (affirmConsent f affs).1.consentStatus =
      some ⟨affs.contains "I am 18+", affs.contains "I consent to romantic messages"⟩ ∧
    (affirmConsent f affs).1.boundaries = f.boundaries ∧
    (affirmConsent f affs).1.preferences = f.preferences ∧
    (affirmConsent f []).1.consentStatus = some ⟨false, false⟩ :=
  ⟨rfl, rfl, rfl, rfl⟩

end OfOps
